import Mathlib

set_option maxRecDepth 100000

/-!
Verification development for the Cultivar Labs simulation core (`src/app.py`).

The Python source is shallowly embedded: Python floats are modelled as exact
rationals (`ℚ`), `int(x)` truncation as `pyTrunc`, the builtin `round(x, 2)`
as `round2` (round half to even, as Python does), and every call to the
global random generator is replaced by an explicit oracle argument carrying
the drawn value, with interval hypotheses where the claim needs them.
In-place mutation of strains/batches is modelled by threading the updated
lists through each operation; uncaught Python exceptions (AttributeError,
KeyError, StopIteration) are modelled as `Except` errors.
-/

namespace Cultivar

/-! ### Definitions: the embedded data model and engines -/

/-- Floor of a rational, written so the kernel can evaluate it
    (Mathlib's `Int.floor` on `ℚ` does not reduce under `decide`). -/
def ratFloor (q : ℚ) : ℤ :=
  match q.num with
  | Int.ofNat n => Int.ofNat (n / q.den)
  | Int.negSucc m => -(Int.ofNat ((m + q.den) / q.den))

/-- Python `int(x)` applied to a real value: truncation toward zero. -/
def pyTrunc (q : ℚ) : ℤ := if q < 0 then -ratFloor (-q) else ratFloor q

/-- Round to nearest integer, ties to even — the rule used by Python `round`. -/
def roundHalfEven (q : ℚ) : ℤ :=
  let fl := ratFloor q
  let frac := q - fl
  if frac < 1/2 then fl
  else if 1/2 < frac then fl + 1
  else if fl % 2 = 0 then fl else fl + 1

/-- Python `round(x, 2)` on the rational model of floats. -/
def round2 (q : ℚ) : ℚ := ((roundHalfEven (q * 100) : ℤ) : ℚ) / 100

/-- An allele pair, e.g. `("T", "t")` — a Python 2-tuple of strings. -/
abbrev Pair := String × String

/-- Python tuple membership `x in (p[0], p[1])`. -/
def pairHas (p : Pair) (x : String) : Bool := p.1 == x || p.2 == x

/-- Lexicographic comparison of character lists by Unicode code point,
    exactly Python's string `<` (written out so the kernel can evaluate it). -/
def strLtCore : List Char → List Char → Bool
  | [], [] => false
  | [], _ :: _ => true
  | _ :: _, [] => false
  | a :: as, b :: bs =>
    if a.toNat < b.toNat then true
    else if b.toNat < a.toNat then false
    else strLtCore as bs

/-- Python string `<`. -/
def pyStrLt (a b : String) : Bool := strLtCore a.data b.data

/-- Python `tuple(sorted((a, b)))` for two strings (Python lexicographic order). -/
def sortPair (a b : String) : Pair := if pyStrLt b a then (b, a) else (a, b)

/-- A genetics mapping (Python `dict` from gene key to allele pair),
    modelled as an association list in insertion order. -/
abbrev Genetics := List (String × Pair)

/-- Python `d[k]` / `d.get(k)` on a genetics dict: first matching key. -/
def lookupGene (g : Genetics) (k : String) : Option Pair :=
  match g.find? (fun kv => kv.1 == k) with
  | some kv => some kv.2
  | none => none

/-- The `Strain` dataclass of `src/app.py`.  Note that the dataclass defines
    NO `times_grown` field — this is significant for the facility engine. -/
structure Strain where
  name : String
  id : String
  genetics : Genetics
  potency : ℤ
  yield_amount : ℤ
  generation : ℤ
  parents_text : String
  parent_ids : List String
  is_proven : Bool
  is_sequenced : Bool
  stock_standard : ℤ
  stock_artisanal : ℤ
deriving Repr, DecidableEq

/-- The `Batch` dataclass of `src/app.py`. -/
structure Batch where
  id : String
  strain_id : String
  strain_name : String
  amount : ℤ
  harvest_season : ℤ
  status : String
  seasons_remaining : ℤ
  method : String
deriving Repr, DecidableEq

/-- The `GrowRoom` dataclass of `src/app.py`. -/
structure GrowRoom where
  id : ℤ
  strain_id : Option String
  strain_name : Option String
  substrate : Option String
  nutrient : Option String
deriving Repr, DecidableEq

/-- One row of the `SUBSTRATES` table. -/
structure SubstrateData where
  name : String
  cost_mult : ℚ
  yield_mult : ℚ
  value_mult : ℚ
  desc : String
deriving Repr, DecidableEq

/-- One row of the `NUTRIENTS` table. -/
structure NutrientData where
  name : String
  cost : ℚ
  yield_bonus : ℚ
  risk : ℚ
  desc : String
deriving Repr, DecidableEq

def soilData : SubstrateData :=
  { name := "Living Soil", cost_mult := 1, yield_mult := 9/10, value_mult := 5/4,
    desc := "Lower yield, Premium price." }

def hydroData : SubstrateData :=
  { name := "Deep Water Hydro", cost_mult := 3/2, yield_mult := 13/10, value_mult := 1,
    desc := "Max yield, Standard price." }

def cocoData : SubstrateData :=
  { name := "Coco Coir", cost_mult := 6/5, yield_mult := 11/10, value_mult := 21/20,
    desc := "Balanced approach." }

/-- The `SUBSTRATES` configuration dict (Python dict lookup, `none` = KeyError). -/
def SUBSTRATES (k : String) : Option SubstrateData :=
  if k = "soil" then some soilData
  else if k = "hydro" then some hydroData
  else if k = "coco" then some cocoData
  else none

def synData : NutrientData :=
  { name := "Synthetic Salts", cost := 100, yield_bonus := 15/100, risk := 10/100,
    desc := "Pushes growth, risk of burn." }

def orgData : NutrientData :=
  { name := "Organic Teas", cost := 300, yield_bonus := 0, risk := -(5/100),
    desc := "Safe, improves terpene profile (+Value)." }

/-- The `NUTRIENTS` configuration dict. -/
def NUTRIENTS (k : String) : Option NutrientData :=
  if k = "syn" then some synData
  else if k = "org" then some orgData
  else none

/-- The `TERPENES` dict (code to full display name). -/
def TERPENES (c : String) : Option String :=
  if c = "L" then some "Limonene (Citrus)"
  else if c = "M" then some "Myrcene (Earth)"
  else if c = "P" then some "Pinene (Pine)"
  else if c = "C" then some "Caryophyllene (Spice)"
  else none

/-- Uncaught Python exceptions and in-band error returns of the engines. -/
inductive RunError where
  | attributeError (msg : String)
  | keyError (msg : String)
  | stopIteration
deriving Repr, DecidableEq

/-- The method `Strain.generate_random_stats` (lines 97-117 of `src/app.py`).  The two
    `random.uniform(-10, 10)` draws are the oracle arguments `rp` and `ry`. -/
def generate_random_stats (s : Strain) (rp ry : ℚ) : Strain :=
  let base_pot : ℚ := 50
  let base_yld : ℚ := 50
  let s_alleles := (lookupGene s.genetics "structure").getD ("t", "t")
  let base_pot := if pairHas s_alleles "T" then base_pot + 15 else base_pot - 5
  let base_yld := if pairHas s_alleles "T" then base_yld - 10 else base_yld + 20
  let a_alleles := (lookupGene s.genetics "aroma").getD ("L", "L")
  let base_pot := if a_alleles.1 = a_alleles.2 then base_pot else base_pot + 5
  { s with potency := max 10 (min 100 (pyTrunc (base_pot + rp))),
           yield_amount := max 10 (min 100 (pyTrunc (base_yld + ry))),
           is_proven := true }

/-- The method `Strain.get_growth_speed`; `none` models the KeyError on a missing
    "structure" gene. -/
def get_growth_speed (s : Strain) : Option ℤ :=
  (lookupGene s.genetics "structure").map (fun p => if pairHas p "T" then 30 else 60)

/-- Python `random.choice` over a 2-tuple: the oracle bit selects the element. -/
def pickAllele (p : Pair) (b : Bool) : String := if b then p.1 else p.2

/-- The engine method `BreedingEngine.breed` (lines 151-174 of `src/app.py`).  The three per-gene
    choice pairs come from the oracle `rnd` (genes drawn in source order:
    structure, resistance, aroma); `cid` stands for the fresh uuid of the
    child.  A missing gene key is Python's KeyError. -/
def breed (parent_a parent_b : Strain) (name_suggestion : String)
    (upgrades : List String) (rnd : ℕ → Bool × Bool) (cid : String) :
    Except RunError Strain :=
  match lookupGene parent_a.genetics "structure" with
  | none => .error (.keyError "structure")
  | some sa =>
  match lookupGene parent_b.genetics "structure" with
  | none => .error (.keyError "structure")
  | some sb =>
  match lookupGene parent_a.genetics "resistance" with
  | none => .error (.keyError "resistance")
  | some ra =>
  match lookupGene parent_b.genetics "resistance" with
  | none => .error (.keyError "resistance")
  | some rb =>
  match lookupGene parent_a.genetics "aroma" with
  | none => .error (.keyError "aroma")
  | some terp_a =>
  match lookupGene parent_b.genetics "aroma" with
  | none => .error (.keyError "aroma")
  | some terp_b =>
  .ok { name := name_suggestion, id := cid,
        genetics :=
          [("structure", sortPair (pickAllele sa (rnd 0).1) (pickAllele sb (rnd 0).2)),
           ("resistance", sortPair (pickAllele ra (rnd 1).1) (pickAllele rb (rnd 1).2)),
           ("aroma", sortPair (pickAllele terp_a (rnd 2).1) (pickAllele terp_b (rnd 2).2))],
        potency := 0, yield_amount := 0,
        generation := max parent_a.generation parent_b.generation + 1,
        parents_text := parent_a.name ++ " x " ++ parent_b.name,
        parent_ids := [parent_a.id, parent_b.id],
        is_proven := false, is_sequenced := upgrades.contains "seq",
        stock_standard := 0, stock_artisanal := 0 }

/-- The breeding caller in the UI (tab 5, lines 550-557): on success the
    child is appended to the session strain collection; nothing else in the
    collection is written. -/
def breed_and_register (strains : List Strain) (parent_a parent_b : Strain)
    (name_suggestion : String) (upgrades : List String) (rnd : ℕ → Bool × Bool)
    (cid : String) : Except RunError (List Strain) :=
  match breed parent_a parent_b name_suggestion upgrades rnd cid with
  | .error e => .error e
  | .ok child => .ok (strains ++ [child])

/-- Replace the element at index `i` (in-place mutation of one list element). -/
def updateAt (l : List Strain) (i : ℕ) (f : Strain → Strain) : List Strain :=
  match l, i with
  | [], _ => []
  | x :: xs, 0 => f x :: xs
  | x :: xs, n + 1 => x :: updateAt xs n f

/-- The random draws one loop iteration of `run_facility` can consume:
    the two `uniform(-10, 10)` stat rolls, the `uniform(0.9, 1.1)` yield
    variance, and the `random.random()` risk roll. -/
structure RoomRand where
  statPot : ℚ
  statYld : ℚ
  variance : ℚ
  riskRoll : ℚ
deriving DecidableEq

/-- One entry of the `cycle_results` list built by `run_facility`. -/
structure RoomResult where
  room_id : ℤ
  strain : Strain
  yield_g : ℤ
  event : Option String
  proven_now : Bool
deriving Repr, DecidableEq

/-- What a call to `run_facility` can produce: one of the two in-band
    dictionary returns, or an uncaught exception. -/
inductive FacilityOutcome where
  | errorResult (msg : String)
  | success (cost : ℤ) (results : List RoomResult)
  | exn (e : RunError)
deriving Repr, DecidableEq

/-- The pre-risk per-room yield of `run_facility` (lines 207-213):
    `int(strain.yield_amount * 2.5 * variance * (sub.yield_mult + nut.yield_bonus))`. -/
def room_yield (strain : Strain) (variance : ℚ) (sub_data : SubstrateData)
    (nut_data : NutrientData) : ℤ :=
  let base_yield : ℚ := (strain.yield_amount : ℚ) * (5/2)
  let yield_mult : ℚ := sub_data.yield_mult + nut_data.yield_bonus
  pyTrunc (base_yield * variance * yield_mult)

/-- The body of the `for room in occupied` loop of `run_facility`
    (lines 185-239), threading the in-place mutations of `strains`.
    Python's `strain.times_grown += 1` at line 231 reads an attribute the
    `Strain` dataclass never defines, so every iteration that reaches it
    raises AttributeError; the mutations made before that point persist. -/
def facilityLoop (upgrades : List String) (rnd : ℕ → RoomRand) :
    List GrowRoom → ℕ → List Strain → ℤ → List RoomResult →
    (Except RunError (ℤ × List RoomResult)) × List Strain
  | [], _, strains, total_cost, results => (.ok (total_cost, results), strains)
  | room :: rest, i, strains, total_cost, results =>
    match List.findIdx? (fun s => some s.id == room.strain_id) strains with
    | none => (.error .stopIteration, strains)
    | some idx =>
      match strains[idx]? with
      | none => (.error .stopIteration, strains)
      | some strain0 =>
        match room.substrate.bind SUBSTRATES with
        | none => (.error (.keyError "substrate"), strains)
        | some sub_data =>
        match room.nutrient.bind NUTRIENTS with
        | none => (.error (.keyError "nutrient"), strains)
        | some nut_data =>
        match get_growth_speed strain0 with
        | none => (.error (.keyError "structure"), strains)
        | some speed =>
          let days : ℤ := 100 - speed
          let base_run_cost : ℚ := 500 + (days : ℚ) * 12
          let run_cost : ℚ := base_run_cost * sub_data.cost_mult + nut_data.cost
          let total_cost := total_cost + pyTrunc run_cost
          let newly_proven := !strain0.is_proven
          let strain1 := if strain0.is_proven then strain0
                         else generate_random_stats strain0 (rnd i).statPot (rnd i).statYld
          let strains := updateAt strains idx (fun _ => strain1)
          let final_yield := room_yield strain1 (rnd i).variance sub_data nut_data
          match lookupGene strain1.genetics "resistance" with
          | none => (.error (.keyError "resistance"), strains)
          | some r_pair =>
            let is_hardy := pairHas r_pair "R"
            let base_risk : ℚ := if is_hardy then 5/100 else 25/100
            let risk_mod : ℚ := nut_data.risk + (if upgrades.contains "hepa" then -(10/100) else 0)
            let total_risk : ℚ := max (1/100) (base_risk + risk_mod)
            let final_yield := if (rnd i).riskRoll < total_risk
                               then final_yield - pyTrunc ((final_yield : ℚ) * (4/10))
                               else final_yield
            -- line 231: `strain.times_grown += 1` — AttributeError, always.
            -- The remaining lines (the append to cycle_results, and for later
            -- iterations the rest of the loop) are unreachable; they would
            -- have appended
            --   { room_id := room.id, strain := strain1, yield_g := final_yield,
            --     event := …, proven_now := newly_proven }
            -- and recursed on `rest` with index `i + 1`.
            (.error (.attributeError "times_grown"), strains)

/-- The engine method `FacilityEngine.run_facility` (lines 176-242).  Returns the outcome
    together with the strain list after all in-place mutations performed up
    to the return (or uncaught exception).  `rooms` and `funds` are only
    read, never written, by this function. -/
def run_facility (rooms : List GrowRoom) (strains : List Strain) (funds : ℤ)
    (upgrades : List String) (season : ℤ) (rnd : ℕ → RoomRand) :
    FacilityOutcome × List Strain :=
  let occupied := rooms.filter (fun r => r.strain_id.isSome)
  if occupied.isEmpty then (.errorResult "No active rooms.", strains)
  else
    match facilityLoop upgrades rnd occupied 0 strains 0 [] with
    | (.error e, strains1) => (.exn e, strains1)
    | (.ok (total_cost, results), strains1) =>
      if funds < total_cost then
        (.errorResult ("Need $" ++ toString total_cost ++ " to run facility."), strains1)
      else (.success total_cost results, strains1)

/-- The engine method `CuringEngine.create_batch` (lines 245-258): a freshly harvested batch is
    `Fresh` with `seasons_remaining = 0`.  `bid` stands for the fresh uuid. -/
def create_batch (strain : Strain) (amount : ℤ) (season : ℤ) (room : GrowRoom)
    (bid : String) : Except RunError Batch :=
  match room.substrate.bind SUBSTRATES with
  | none => .error (.keyError "substrate")
  | some sub =>
    .ok { id := bid, strain_id := strain.id, strain_name := strain.name,
          amount := amount, harvest_season := season, status := "Fresh",
          seasons_remaining := 0, method := sub.name }

/-- One iteration of the `for b in batches` loop of
    `CuringEngine.process_batches` (lines 264-277), for batch `b` with
    spoilage roll `roll`.  The in-place `b.seasons_remaining -= 1` followed by
    the `<= 0` test is written as the test on `b.seasons_remaining - 1`, and
    the decremented value is stored in every returned batch.  Returns the
    mutated batch, the mutated strain list and the events this batch emitted;
    `StopIteration` models `next()` finding no source strain. -/
def processBatchOne (b : Batch) (strains : List Strain) (roll : ℚ) :
    Except RunError (Batch × List Strain × List String) :=
  if b.status = "Curing" ∨ b.status = "Deep Curing" then
    if b.seasons_remaining - 1 ≤ 0 then
      match List.findIdx? (fun s => s.id == b.strain_id) strains with
      | none => .error .stopIteration
      | some idx =>
        if b.status = "Deep Curing" then
          if roll < 15/100 then
            .ok ({ b with
                     status := "Destroyed"
                     seasons_remaining := b.seasons_remaining - 1 },
                 strains, ["âŒ Batch " ++ b.id ++ " rotted."])
          else
            .ok ({ b with
                     status := "Finished"
                     seasons_remaining := b.seasons_remaining - 1 },
                 updateAt strains idx
                   (fun t => { t with stock_artisanal := t.stock_artisanal + b.amount }),
                 [])
        else
          .ok ({ b with
                   status := "Finished"
                   seasons_remaining := b.seasons_remaining - 1 },
               updateAt strains idx
                 (fun t => { t with stock_standard := t.stock_standard + b.amount }),
               [])
    else .ok ({ b with seasons_remaining := b.seasons_remaining - 1 }, strains, [])
  else .ok (b, strains, [])

/-- The whole `for b in batches` loop: batches processed in order, strain
    mutations threaded, events concatenated, first uncaught exception
    aborting the rest (as in Python). -/
def processLoop (rnd : ℕ → ℚ) :
    List Batch → ℕ → List Strain →
    Except RunError (List Batch × List Strain × List String)
  | [], _, strains => .ok ([], strains, [])
  | b :: rest, i, strains =>
    match processBatchOne b strains (rnd i) with
    | .error e => .error e
    | .ok (b2, strains1, evs1) =>
      match processLoop rnd rest (i + 1) strains1 with
      | .error e => .error e
      | .ok (bs, ss, evs) => .ok (b2 :: bs, ss, evs1 ++ evs)

/-- The full result of `CuringEngine.process_batches`: all batch objects after
    mutation, the strains after inventory credits, the returned event list,
    and `active` — the filtered list written back to the session's batch
    collection at line 278. -/
structure ProcResult where
  batchesAll : List Batch
  strains : List Strain
  events : List String
  active : List Batch
deriving Repr, DecidableEq

/-- The engine method `CuringEngine.process_batches` (lines 260-279). -/
def process_batches (batches : List Batch) (strains : List Strain)
    (rnd : ℕ → ℚ) : Except RunError ProcResult :=
  match processLoop rnd batches 0 strains with
  | .error e => .error e
  | .ok (bs, ss, evs) =>
    .ok { batchesAll := bs, strains := ss, events := evs,
          active := bs.filter (fun b => !(b.status == "Finished" || b.status == "Destroyed")) }

/-- A deterministic model of the process-wide Mersenne generator: after
    `random.seed(n)` the next `random.choice` over four items and the
    following `random.uniform(3.0, 7.0)` are fixed functions of `n`. -/
structure PRNGModel where
  choice4 : ℤ → Fin 4
  uniform37 : ℤ → ℚ

/-- The engine method `MarketEngine.get_market_state` (lines 282-289).  `rngState` is the
    global random state on entry (discarded by `random.seed(season + 999)`),
    `entropy` the fresh OS entropy consumed by the trailing `random.seed()`;
    the second component of the result is the global random state on exit. -/
def get_market_state (R : PRNGModel) (season : ℤ) (rngState : ℕ) (entropy : ℕ) :
    (ℚ × String × String) × ℕ :=
  let seed : ℤ := season + 999
  let trending_code := ["L", "M", "P", "C"].getD (R.choice4 seed) ""
  let trending_name := (((TERPENES trending_code).getD "").splitOn " ").getD 0 ""
  let base := R.uniform37 seed
  ((base, trending_code, trending_name), entropy)

/-- The grade multiplier applied at lines 296-297 (`Fresh` 0.7, `Artisanal`
    1.4, anything else — i.e. `Standard` — 1.0). -/
def gradeMult (grade : String) : ℚ :=
  if grade = "Fresh" then 7/10 else if grade = "Artisanal" then 14/10 else 1

/-- The engine method `MarketEngine.calculate_value` (lines 291-298). -/
def calculate_value (base_price : ℚ) (strain : Strain) (trending_code : String)
    (grade : String) : Except RunError ℚ :=
  match lookupGene strain.genetics "aroma" with
  | none => .error (.keyError "aroma")
  | some aroma =>
    let val := base_price * ((strain.potency : ℚ) / 50)
    let val := if pairHas aroma trending_code then val * (13/10) else val
    let val := if aroma.1 = aroma.2 then val * (11/10) else val
    let val := if grade = "Fresh" then val * (7/10)
               else if grade = "Artisanal" then val * (14/10) else val
    .ok (round2 val)

/-- Membership of a symbol in an allele pair, as a proposition. -/
def memPair (x : String) (p : Pair) : Prop := x = p.1 ∨ x = p.2

/-- A proven founder (the `Lemon Sol` starter of lines 344-346). -/
def lemonSol : Strain :=
  { name := "Lemon Sol", id := "s1",
    genetics := [("structure", ("T", "T")), ("resistance", ("r", "r")), ("aroma", ("L", "P"))],
    potency := 70, yield_amount := 40, generation := 1, parents_text := "Unknown",
    parent_ids := [], is_proven := true, is_sequenced := false,
    stock_standard := 0, stock_artisanal := 0 }

/-- A proven founder (the `Musky Spice` starter of lines 348-350). -/
def muskySpice : Strain :=
  { name := "Musky Spice", id := "s2",
    genetics := [("structure", ("t", "t")), ("resistance", ("R", "R")), ("aroma", ("C", "M"))],
    potency := 45, yield_amount := 70, generation := 1, parents_text := "Unknown",
    parent_ids := [], is_proven := true, is_sequenced := false,
    stock_standard := 0, stock_artisanal := 0 }

/-- An unproven seed strain (as produced by breeding): stats still zero. -/
def seedStrain : Strain :=
  { name := "Seed-101", id := "sd1",
    genetics := [("structure", ("T", "T")), ("resistance", ("r", "r")), ("aroma", ("L", "P"))],
    potency := 0, yield_amount := 0, generation := 2,
    parents_text := "Lemon Sol x Musky Spice", parent_ids := ["s1", "s2"],
    is_proven := false, is_sequenced := false, stock_standard := 0, stock_artisanal := 0 }

/-- A room occupied by the seed strain, configured soil + organic teas. -/
def seedRoom : GrowRoom :=
  { id := 1, strain_id := some "sd1", strain_name := some "Seed-101",
    substrate := some "soil", nutrient := some "org" }

/-- A fixed random oracle for facility runs: zero stat perturbation, variance
    factor 1, risk roll 1/2 (above every possible risk threshold). -/
def rnd0 : ℕ → RoomRand :=
  fun _ => { statPot := 0, statYld := 0, variance := 1, riskRoll := 1/2 }

/-- The strain `seedStrain` after `generate_random_stats` with zero perturbation:
    structure ("T","T") gives 50+15 potency and 50-10 yield, the heterozygous
    aroma adds 5 potency. -/
def seedProven : Strain :=
  { seedStrain with potency := 70, yield_amount := 40, is_proven := true }

/-- Witness strain for the market-value claims: potency 51, homozygous
    trending aroma ("L","L"). -/
def c8Strain : Strain :=
  { name := "C8", id := "s8",
    genetics := [("structure", ("T", "T")), ("resistance", ("r", "r")), ("aroma", ("L", "L"))],
    potency := 51, yield_amount := 40, generation := 1, parents_text := "Unknown",
    parent_ids := [], is_proven := true, is_sequenced := false,
    stock_standard := 0, stock_artisanal := 0 }

/-- A proven strain with `yield_amount = 40`. -/
def c3Strain : Strain :=
  { name := "C3", id := "s3",
    genetics := [("structure", ("T", "T")), ("resistance", ("r", "r")), ("aroma", ("L", "P"))],
    potency := 70, yield_amount := 40, generation := 1, parents_text := "Unknown",
    parent_ids := [], is_proven := true, is_sequenced := false,
    stock_standard := 0, stock_artisanal := 0 }

/-- A jar-cured batch one season from ready, sourced from `lemonSol`. -/
def jarBatch : Batch :=
  { id := "b4", strain_id := "s1", strain_name := "Lemon Sol", amount := 90,
    harvest_season := 2, status := "Curing", seasons_remaining := 1,
    method := "Living Soil" }

/-- A deep-cured batch one season from ready, sourced from `muskySpice`. -/
def deepBatch : Batch :=
  { id := "b5", strain_id := "s2", strain_name := "Musky Spice", amount := 80,
    harvest_season := 2, status := "Deep Curing", seasons_remaining := 1,
    method := "Deep Water Hydro" }

/-- A deep-cured batch two seasons from ready. -/
def deepTwoBatch : Batch :=
  { id := "b9", strain_id := "s2", strain_name := "Musky Spice", amount := 80,
    harvest_season := 3, status := "Deep Curing", seasons_remaining := 2,
    method := "Living Soil" }

/-- The batch `deepTwoBatch` after one curing tick. -/
def deepTwoAfter : Batch := { deepTwoBatch with seasons_remaining := 1 }

/-- The result of one `process_batches` call on `[deepTwoBatch]`. -/
def procResW : ProcResult :=
  { batchesAll := [deepTwoAfter], strains := [], events := [],
    active := [deepTwoAfter] }

/-- A room configured with living soil, occupied by `muskySpice`. -/
def soilRoom : GrowRoom :=
  { id := 2, strain_id := some "s2", strain_name := some "Musky Spice",
    substrate := some "soil", nutrient := some "org" }

/-- The batch `create_batch` produces from `muskySpice` in `soilRoom`. -/
def freshB : Batch :=
  { id := "bF", strain_id := "s2", strain_name := "Musky Spice", amount := 100,
    harvest_season := 2, status := "Fresh", seasons_remaining := 0,
    method := "Living Soil" }

/-- A parent homozygous ("T","T") for structure, for the C7 witness. -/
def paW : Strain :=
  { name := "PA", id := "pa1",
    genetics := [("structure", ("T", "T")), ("resistance", ("R", "r")), ("aroma", ("L", "P"))],
    potency := 60, yield_amount := 50, generation := 1, parents_text := "Unknown",
    parent_ids := [], is_proven := true, is_sequenced := false,
    stock_standard := 0, stock_artisanal := 0 }

/-- A second parent homozygous ("T","T") for structure, for the C7 witness. -/
def pbW : Strain :=
  { name := "PB", id := "pb1",
    genetics := [("structure", ("T", "T")), ("resistance", ("r", "r")), ("aroma", ("C", "M"))],
    potency := 55, yield_amount := 60, generation := 1, parents_text := "Unknown",
    parent_ids := [], is_proven := true, is_sequenced := false,
    stock_standard := 0, stock_artisanal := 0 }

/-- The child `breed` produces from `lemonSol` and `muskySpice` with the
    all-first-allele oracle. -/
def bredChild : Strain :=
  { name := "Kid", id := "c2",
    genetics := [("structure", ("T", "t")), ("resistance", ("R", "r")), ("aroma", ("C", "L"))],
    potency := 0, yield_amount := 0, generation := 2,
    parents_text := "Lemon Sol x Musky Spice", parent_ids := ["s1", "s2"],
    is_proven := false, is_sequenced := false, stock_standard := 0, stock_artisanal := 0 }

/-- The strain collection after registering `bredChild`. -/
def bredList : List Strain := [lemonSol, muskySpice, bredChild]

/-! ### Properties -/

lemma ratFloor_mul_den_le (q : ℚ) : ratFloor q * (q.den : ℤ) ≤ q.num := by
  unfold ratFloor
  cases hn : q.num with
  | ofNat n =>
      simpa using Int.ofNat_le.mpr (Nat.div_mul_le_self n q.den)
  | negSucc m =>
      have hd : 0 < q.den := q.den_pos
      have h1 : q.den * ((m + q.den) / q.den) + (m + q.den) % q.den = m + q.den :=
        Nat.div_add_mod (m + q.den) q.den
      have h2 : (m + q.den) % q.den < q.den := Nat.mod_lt _ hd
      have h1' : (q.den : ℤ) * ((m + q.den) / q.den : ℕ) + ((m + q.den) % q.den : ℕ)
          = (m : ℤ) + q.den := by exact_mod_cast h1
      have h2' : (((m + q.den) % q.den : ℕ) : ℤ) < (q.den : ℤ) := by exact_mod_cast h2
      have hc : (q.den : ℤ) * ((m + q.den) / q.den : ℕ)
          = (((m + q.den) / q.den : ℕ) : ℤ) * q.den := mul_comm _ _
      have : -((((m + q.den) / q.den : ℕ)) : ℤ) * q.den ≤ Int.negSucc m := by
        rw [Int.negSucc_eq]
        have : (m : ℤ) + 1 ≤ (((m + q.den) / q.den : ℕ) : ℤ) * q.den := by linarith
        linarith
      simpa using this

lemma num_lt_ratFloor_add_one_mul_den (q : ℚ) :
    q.num < (ratFloor q + 1) * (q.den : ℤ) := by
  unfold ratFloor
  cases hn : q.num with
  | ofNat n =>
      have hd : 0 < q.den := q.den_pos
      have h1 : q.den * (n / q.den) + n % q.den = n := Nat.div_add_mod n q.den
      have h2 : n % q.den < q.den := Nat.mod_lt _ hd
      have h1' : (q.den : ℤ) * ((n / q.den : ℕ) : ℤ) + ((n % q.den : ℕ) : ℤ) = (n : ℤ) := by
        exact_mod_cast h1
      have h2' : ((n % q.den : ℕ) : ℤ) < (q.den : ℤ) := by exact_mod_cast h2
      have hring : (((n / q.den : ℕ) : ℤ) + 1) * (q.den : ℤ)
          = (q.den : ℤ) * ((n / q.den : ℕ) : ℤ) + q.den := by ring
      have : (n : ℤ) < (((n / q.den : ℕ) : ℤ) + 1) * (q.den : ℤ) := by
        rw [hring]; linarith
      simpa using this
  | negSucc m =>
      have h3 : ((m + q.den) / q.den) * q.den ≤ m + q.den := Nat.div_mul_le_self _ _
      have h3' : (((m + q.den) / q.den : ℕ) : ℤ) * (q.den : ℤ) ≤ (m : ℤ) + q.den := by
        exact_mod_cast h3
      have hring : (-((((m + q.den) / q.den : ℕ)) : ℤ) + 1) * (q.den : ℤ)
          = (q.den : ℤ) - (((m + q.den) / q.den : ℕ) : ℤ) * q.den := by ring
      have : Int.negSucc m < (-((((m + q.den) / q.den : ℕ)) : ℤ) + 1) * (q.den : ℤ) := by
        rw [Int.negSucc_eq, hring]; linarith
      simpa using this

/-- The executable floor agrees with Mathlib's `Int.floor`. -/
lemma ratFloor_eq_floor (q : ℚ) : ratFloor q = ⌊q⌋ := by
  symm
  rw [Int.floor_eq_iff]
  have hd : (0 : ℚ) < (q.den : ℚ) := by exact_mod_cast q.den_pos
  constructor
  · conv_rhs => rw [← Rat.num_div_den q]
    rw [le_div_iff₀ hd]
    exact_mod_cast ratFloor_mul_den_le q
  · conv_lhs => rw [← Rat.num_div_den q]
    rw [div_lt_iff₀ hd]
    exact_mod_cast num_lt_ratFloor_add_one_mul_den q

lemma pyTrunc_of_nonneg {q : ℚ} (h : 0 ≤ q) : pyTrunc q = ⌊q⌋ := by
  rw [pyTrunc, if_neg (not_lt.mpr h), ratFloor_eq_floor]

lemma pickAllele_memPair (p : Pair) (f : Bool) : memPair (pickAllele p f) p := by
  cases f <;> simp [pickAllele, memPair]

lemma pickAllele_self (x : String) (f : Bool) : pickAllele (x, x) f = x := by
  cases f <;> rfl

lemma sortPair_cases (a b : String) : sortPair a b = (a, b) ∨ sortPair a b = (b, a) := by
  unfold sortPair
  split
  · exact Or.inr rfl
  · exact Or.inl rfl

lemma sortPair_self (a : String) : sortPair a a = (a, a) := by
  unfold sortPair
  split <;> rfl

lemma lookupGene_nil (k : String) : lookupGene [] k = none := rfl

lemma lookupGene_cons_eq (k : String) (p : Pair) (rest : Genetics) :
    lookupGene ((k, p) :: rest) k = some p := by
  simp [lookupGene, List.find?]

lemma lookupGene_cons_ne (k k2 : String) (p : Pair) (rest : Genetics) (h : k2 ≠ k) :
    lookupGene ((k2, p) :: rest) k = lookupGene rest k := by
  simp only [lookupGene, List.find?]
  rw [show ((k2, p).1 == k) = false from beq_eq_false_iff_ne.mpr h]

lemma pyTrunc_bounds {q : ℚ} {lo hi : ℤ} (h1 : (lo : ℚ) ≤ q) (h2 : q < (hi : ℚ) + 1)
    (h0 : 0 ≤ q) : lo ≤ pyTrunc q ∧ pyTrunc q ≤ hi := by
  rw [pyTrunc_of_nonneg h0]
  refine ⟨Int.le_floor.mpr h1, ?_⟩
  have h3 : ⌊q⌋ < hi + 1 := Int.floor_lt.mpr (by push_cast; linarith)
  omega

/-- C6: `MarketEngine.get_market_state` is a pure function of the season:
    whatever the ambient global random state (and the OS entropy consumed by
    the trailing re-seed), two calls with the same season in the same process
    run return the identical `(basePrice, trendSymbol, trendName)` triple,
    because `random.seed(season + 999)` makes every draw a function of the
    season alone. -/
theorem marketStatePure (R : PRNGModel) (season : ℤ) (st1 st2 e1 e2 : ℕ) :
    (get_market_state R season st1 e1).1 = (get_market_state R season st2 e2).1 := rfl

/-- C8 (amended): `MarketEngine.calculate_value` returns
    `basePrice * (potency / 50)`, times 1.3 if the trending symbol appears in
    the strain's aroma pair, times a further 1.1 if the aroma pair is
    homozygous, times the grade factor — strictly ordered
    Fresh (0.7) < Standard (1.0) < Artisanal (1.4) — with the final result
    rounded to two decimal places. -/
theorem calculateValueFormula (base_price : ℚ) (strain : Strain)
    (trending_code grade : String) (aroma : Pair)
    (h : lookupGene strain.genetics "aroma" = some aroma) :
    calculate_value base_price strain trending_code grade
      = .ok (round2 (base_price * ((strain.potency : ℚ) / 50)
          * (if pairHas aroma trending_code then 13/10 else 1)
          * (if aroma.1 = aroma.2 then 11/10 else 1) * gradeMult grade))
    ∧ gradeMult "Fresh" < gradeMult "Standard"
    ∧ gradeMult "Standard" < gradeMult "Artisanal" := by
  refine ⟨?_, by with_unfolding_all decide, by with_unfolding_all decide⟩
  simp only [calculate_value, gradeMult, h]
  split_ifs <;>
    exact congrArg (fun q => (Except.ok (round2 q) : Except RunError ℚ)) (by ring)

/-- C8 witness: the amended formula evaluated at a concrete strain. -/
theorem calculateValueFormulaWitness :
    calculate_value 5 c8Strain "L" "Standard"
      = .ok (round2 (5 * ((c8Strain.potency : ℚ) / 50)
          * (if pairHas ("L", "L") "L" then 13/10 else 1)
          * (if ("L" : String) = "L" then 11/10 else 1) * gradeMult "Standard"))
    ∧ gradeMult "Fresh" < gradeMult "Standard"
    ∧ gradeMult "Standard" < gradeMult "Artisanal" :=
  calculateValueFormula 5 c8Strain "L" "Standard" ("L", "L") rfl

/-- C8 counterexample: at base price 5, potency 51, homozygous trending
    aroma, the code returns 7.29 — the rounded value — not the exact product
    7.293 the claim describes. -/
theorem calculateValueRoundsOutput :
    calculate_value 5 c8Strain "L" "Standard" = .ok (729/100) ∧
    (729/100 : ℚ) ≠ 5 * ((51 : ℚ) / 50) * (13/10) * (11/10) := by
  constructor
  · with_unfolding_all rfl
  · norm_num

/-- C3 (amended): for a strain with `yield_amount = 40` the pre-risk per-room
    yield is `int(100 * v * (substrate yield multiplier + nutrient yield
    bonus))`, where the variance `v` is drawn by `random.uniform(0.9, 1.1)`
    (not `[0.8, 1.2]`); over the available substrate/nutrient configurations
    (multiplier between 0.9 and 1.45) it lies in `[81, 159]`, not `[80, 120]`. -/
theorem roomYieldBounds (s : Strain) (v : ℚ) (subK nutK : String)
    (sd : SubstrateData) (nd : NutrientData)
    (hy : s.yield_amount = 40)
    (hs : SUBSTRATES subK = some sd) (hn : NUTRIENTS nutK = some nd)
    (hv1 : 9/10 ≤ v) (hv2 : v ≤ 11/10) :
    room_yield s v sd nd = pyTrunc (100 * v * (sd.yield_mult + nd.yield_bonus)) ∧
    81 ≤ room_yield s v sd nd ∧ room_yield s v sd nd ≤ 159 := by
  have heq : room_yield s v sd nd = pyTrunc (100 * v * (sd.yield_mult + nd.yield_bonus)) := by
    unfold room_yield
    exact congrArg pyTrunc (by rw [hy]; push_cast; ring)
  refine ⟨heq, ?_⟩
  rw [heq]
  unfold SUBSTRATES at hs
  unfold NUTRIENTS at hn
  split_ifs at hs <;> split_ifs at hn <;>
    first
      | (simp only [reduceCtorEq] at hs)
      | (simp only [reduceCtorEq] at hn)
      | (rw [Option.some.injEq] at hs hn
         subst hs; subst hn
         refine pyTrunc_bounds ?_ ?_ ?_ <;>
           (simp only [soilData, hydroData, cocoData, synData, orgData]
            push_cast
            nlinarith))

/-- C3 witness: bounds at variance 1 with soil + organic configuration. -/
theorem roomYieldBoundsWitness :
    room_yield c3Strain 1 soilData orgData
      = pyTrunc (100 * 1 * (soilData.yield_mult + orgData.yield_bonus)) ∧
    81 ≤ room_yield c3Strain 1 soilData orgData ∧
    room_yield c3Strain 1 soilData orgData ≤ 159 :=
  roomYieldBounds c3Strain 1 "soil" "org" soilData orgData rfl rfl rfl
    (by norm_num) (by norm_num)

/-- C3 counterexample: with the hydro + synthetic configuration and a legal
    variance draw of 1.09 (inside the claim's own `[0.8, 1.2]`), the pre-risk
    yield of a `yield_amount = 40` strain is 158, outside `[80, 120]`. -/
theorem roomYieldOutsideClaimedInterval :
    SUBSTRATES "hydro" = some hydroData ∧ NUTRIENTS "syn" = some synData ∧
    ((8/10 : ℚ) ≤ 109/100 ∧ (109/100 : ℚ) ≤ 12/10) ∧
    room_yield c3Strain (109/100) hydroData synData = 158 ∧
    ¬(80 ≤ room_yield c3Strain (109/100) hydroData synData ∧
      room_yield c3Strain (109/100) hydroData synData ≤ 120) := by
  have he : room_yield c3Strain (109/100) hydroData synData = 158 := by
    with_unfolding_all rfl
  refine ⟨rfl, rfl, by norm_num, he, ?_⟩
  rw [he]
  decide

/-- C1: contrary to the claim, an underfunded facility run does NOT return an
    in-band error with state untouched.  With one occupied room (cost 1640)
    and funds 0, the loop first mutates the unproven strain in place
    (`generate_random_stats` sets potency/yield and flips `is_proven`), then
    raises AttributeError at `strain.times_grown += 1` — before the
    insufficient-funds check at line 241 is ever reached. -/
theorem runFacilityUnderfundedNotAtomic :
    run_facility [seedRoom] [seedStrain] 0 [] 1 rnd0
      = (.exn (.attributeError "times_grown"), [seedProven]) ∧
    seedProven ≠ seedStrain := by
  constructor
  · with_unfolding_all rfl
  · decide

/-- C2: contrary to the claim, a fully funded facility run with an occupied
    room does not complete normally: the `Strain` dataclass defines no
    `times_grown` field, so `strain.times_grown += 1` (line 231) raises
    AttributeError on the very first room. -/
theorem runFacilityFundedCrashes :
    run_facility [seedRoom] [seedStrain] 10000 [] 1 rnd0
      = (.exn (.attributeError "times_grown"), [seedProven]) := by
  with_unfolding_all rfl

lemma processBatches_curing_one (b : Batch) (strains : List Strain) (rnd : ℕ → ℚ)
    (i : ℕ) (hst : b.status = "Curing") (hrem : b.seasons_remaining = 1)
    (hfind : List.findIdx? (fun s => s.id == b.strain_id) strains = some i) :
    process_batches [b] strains rnd
      = .ok { batchesAll := [{ b with status := "Finished", seasons_remaining := 0 }],
              strains := updateAt strains i
                (fun t => { t with stock_standard := t.stock_standard + b.amount }),
              events := [], active := [] } := by
  unfold process_batches processLoop
  simp [processLoop, processBatchOne, hst, hrem, hfind]

lemma processBatches_deep_two (b : Batch) (strains : List Strain) (rnd : ℕ → ℚ)
    (hst : b.status = "Deep Curing") (hrem : b.seasons_remaining = 2) :
    process_batches [b] strains rnd
      = .ok { batchesAll := [{ b with seasons_remaining := 1 }], strains := strains,
              events := [], active := [{ b with seasons_remaining := 1 }] } := by
  unfold process_batches processLoop
  simp [processLoop, processBatchOne, hst, hrem]

lemma processBatches_deep_rot (b : Batch) (strains : List Strain) (rnd : ℕ → ℚ)
    (i : ℕ) (hst : b.status = "Deep Curing") (hrem : b.seasons_remaining = 1)
    (hfind : List.findIdx? (fun s => s.id == b.strain_id) strains = some i)
    (hroll : rnd 0 < 15/100) :
    process_batches [b] strains rnd
      = .ok { batchesAll := [{ b with status := "Destroyed", seasons_remaining := 0 }],
              strains := strains,
              events := ["âŒ Batch " ++ b.id ++ " rotted."], active := [] } := by
  unfold process_batches processLoop
  simp [processLoop, processBatchOne, hst, hrem, hfind, hroll]

lemma processBatches_deep_finish (b : Batch) (strains : List Strain) (rnd : ℕ → ℚ)
    (i : ℕ) (hst : b.status = "Deep Curing") (hrem : b.seasons_remaining = 1)
    (hfind : List.findIdx? (fun s => s.id == b.strain_id) strains = some i)
    (hroll : ¬(rnd 0 < 15/100)) :
    process_batches [b] strains rnd
      = .ok { batchesAll := [{ b with status := "Finished", seasons_remaining := 0 }],
              strains := updateAt strains i
                (fun t => { t with stock_artisanal := t.stock_artisanal + b.amount }),
              events := [], active := [] } := by
  unfold process_batches processLoop
  simp [processLoop, processBatchOne, hst, hrem, hfind, hroll]

/-- C4: a batch in `Curing` with `seasons_remaining = 1` is moved to
    `Finished` (and purged from the active collection) by exactly one call to
    `process_batches` — before the call its status is still "Curing", after
    the one call it is "Finished"; and a `Deep Curing` batch with
    `seasons_remaining = 2` is not resolved by the first call: it merely
    counts down to 1 and stays active, whatever the spoilage roll. -/
theorem curingTickResolution :
    (∀ (b : Batch) (strains : List Strain) (rnd : ℕ → ℚ) (i : ℕ),
        b.status = "Curing" → b.seasons_remaining = 1 →
        List.findIdx? (fun s => s.id == b.strain_id) strains = some i →
        process_batches [b] strains rnd
          = .ok { batchesAll := [{ b with status := "Finished", seasons_remaining := 0 }],
                  strains := updateAt strains i
                    (fun t => { t with stock_standard := t.stock_standard + b.amount }),
                  events := [], active := [] }) ∧
    (∀ (b : Batch) (strains : List Strain) (rnd : ℕ → ℚ),
        b.status = "Deep Curing" → b.seasons_remaining = 2 →
        process_batches [b] strains rnd
          = .ok { batchesAll := [{ b with seasons_remaining := 1 }], strains := strains,
                  events := [], active := [{ b with seasons_remaining := 1 }] }) :=
  ⟨fun b strains rnd i hst hrem hfind =>
     processBatches_curing_one b strains rnd i hst hrem hfind,
   fun b strains rnd hst hrem => processBatches_deep_two b strains rnd hst hrem⟩

/-- C4 witness: the one-tick resolution at a concrete batch and strain list. -/
theorem curingTickResolutionWitness :
    process_batches [jarBatch] [lemonSol] (fun _ => 1/2)
      = .ok { batchesAll := [{ jarBatch with status := "Finished", seasons_remaining := 0 }],
              strains := updateAt [lemonSol] 0
                (fun t => { t with stock_standard := t.stock_standard + jarBatch.amount }),
              events := [], active := [] } :=
  curingTickResolution.1 jarBatch [lemonSol] (fun _ => 1/2) 0 rfl rfl rfl

/-- C5: when the remaining counter reaches zero inside `process_batches`, a
    `Curing` batch always becomes `Finished` and the source strain's standard
    inventory is credited with the full amount; a `Deep Curing` batch becomes
    `Destroyed` — forfeiting the amount, with no inventory credit — exactly
    when the `random.random()` roll is below 0.15, and otherwise becomes
    `Finished` with the strain's artisanal inventory credited in full. -/
theorem curingResolutionOutcomes :
    (∀ (b : Batch) (strains : List Strain) (rnd : ℕ → ℚ) (i : ℕ),
        b.status = "Curing" → b.seasons_remaining = 1 →
        List.findIdx? (fun s => s.id == b.strain_id) strains = some i →
        process_batches [b] strains rnd
          = .ok { batchesAll := [{ b with status := "Finished", seasons_remaining := 0 }],
                  strains := updateAt strains i
                    (fun t => { t with stock_standard := t.stock_standard + b.amount }),
                  events := [], active := [] }) ∧
    (∀ (b : Batch) (strains : List Strain) (rnd : ℕ → ℚ) (i : ℕ),
        b.status = "Deep Curing" → b.seasons_remaining = 1 →
        List.findIdx? (fun s => s.id == b.strain_id) strains = some i →
        rnd 0 < 15/100 →
        process_batches [b] strains rnd
          = .ok { batchesAll := [{ b with status := "Destroyed", seasons_remaining := 0 }],
                  strains := strains,
                  events := ["âŒ Batch " ++ b.id ++ " rotted."], active := [] }) ∧
    (∀ (b : Batch) (strains : List Strain) (rnd : ℕ → ℚ) (i : ℕ),
        b.status = "Deep Curing" → b.seasons_remaining = 1 →
        List.findIdx? (fun s => s.id == b.strain_id) strains = some i →
        ¬(rnd 0 < 15/100) →
        process_batches [b] strains rnd
          = .ok { batchesAll := [{ b with status := "Finished", seasons_remaining := 0 }],
                  strains := updateAt strains i
                    (fun t => { t with stock_artisanal := t.stock_artisanal + b.amount }),
                  events := [], active := [] }) :=
  ⟨fun b strains rnd i hst hrem hfind =>
     processBatches_curing_one b strains rnd i hst hrem hfind,
   fun b strains rnd i hst hrem hfind hroll =>
     processBatches_deep_rot b strains rnd i hst hrem hfind hroll,
   fun b strains rnd i hst hrem hfind hroll =>
     processBatches_deep_finish b strains rnd i hst hrem hfind hroll⟩

/-- C5 witness: a deep-cured batch with a spoilage roll of 0.1 (< 0.15) is
    destroyed with no inventory credit. -/
theorem curingResolutionOutcomesWitness :
    process_batches [deepBatch] [muskySpice] (fun _ => 1/10)
      = .ok { batchesAll := [{ deepBatch with status := "Destroyed", seasons_remaining := 0 }],
              strains := [muskySpice],
              events := ["âŒ Batch " ++ deepBatch.id ++ " rotted."], active := [] } :=
  curingResolutionOutcomes.2.1 deepBatch [muskySpice] (fun _ => 1/10) 0 rfl rfl rfl
    (by norm_num)

lemma processBatchOne_remaining (b : Batch) (strains : List Strain) (roll : ℚ)
    (b2 : Batch) (ss : List Strain) (evs : List String)
    (h : processBatchOne b strains roll = .ok (b2, ss, evs))
    (hstat : b2.status = "Curing" ∨ b2.status = "Deep Curing") :
    1 ≤ b2.seasons_remaining := by
  unfold processBatchOne at h
  by_cases hcond : b.status = "Curing" ∨ b.status = "Deep Curing"
  · rw [if_pos hcond] at h
    by_cases hz : b.seasons_remaining - 1 ≤ 0
    · rw [if_pos hz] at h
      cases hfind : List.findIdx? (fun s => s.id == b.strain_id) strains with
      | none => rw [hfind] at h; exact absurd h (by simp)
      | some idx =>
        rw [hfind] at h
        simp only [] at h
        by_cases hdeep : b.status = "Deep Curing"
        · rw [if_pos hdeep] at h
          by_cases hrot : roll < 15/100
          · rw [if_pos hrot] at h
            simp only [Except.ok.injEq, Prod.mk.injEq] at h
            obtain ⟨rfl, -⟩ := h
            simp at hstat
          · rw [if_neg hrot] at h
            simp only [Except.ok.injEq, Prod.mk.injEq] at h
            obtain ⟨rfl, -⟩ := h
            simp at hstat
        · rw [if_neg hdeep] at h
          simp only [Except.ok.injEq, Prod.mk.injEq] at h
          obtain ⟨rfl, -⟩ := h
          simp at hstat
    · rw [if_neg hz] at h
      simp only [Except.ok.injEq, Prod.mk.injEq] at h
      obtain ⟨rfl, -⟩ := h
      simp only [Batch.seasons_remaining]
      omega
  · rw [if_neg hcond] at h
    simp only [Except.ok.injEq, Prod.mk.injEq] at h
    obtain ⟨rfl, -⟩ := h
    exact absurd hstat hcond

lemma processLoop_remaining (rnd : ℕ → ℚ) (bs : List Batch) :
    ∀ (i : ℕ) (strains : List Strain)
      (out : List Batch × List Strain × List String),
      processLoop rnd bs i strains = .ok out →
      ∀ b ∈ out.1, (b.status = "Curing" ∨ b.status = "Deep Curing") →
        1 ≤ b.seasons_remaining := by
  induction bs with
  | nil =>
      intro i strains out h b hb hstat
      unfold processLoop at h
      simp only [Except.ok.injEq] at h
      subst h
      simp at hb
  | cons hd tl ih =>
      intro i strains out h b hb hstat
      unfold processLoop at h
      cases h1 : processBatchOne hd strains (rnd i) with
      | error e => rw [h1] at h; exact absurd h (by simp)
      | ok trip1 =>
          obtain ⟨b2, strains1, evs1⟩ := trip1
          rw [h1] at h
          simp only [] at h
          cases h2 : processLoop rnd tl (i + 1) strains1 with
          | error e => rw [h2] at h; exact absurd h (by simp)
          | ok trip2 =>
              obtain ⟨bs2, ss, evs⟩ := trip2
              rw [h2] at h
              simp only [Except.ok.injEq] at h
              subst h
              simp only [List.mem_cons] at hb
              rcases hb with rfl | hb
              · exact processBatchOne_remaining hd strains (rnd i) b strains1 evs1 h1 hstat
              · exact ih _ _ _ h2 b hb hstat

/-- C9 (amended): after `process_batches` completes, no batch in the active
    collection has status `Finished` or `Destroyed` (terminal batches are
    purged in the same step), and every active batch still in `Curing` or
    `Deep Curing` has at least one season remaining; a remaining counter of 0
    does, however, persist on `Fresh` batches, which are created with
    `seasons_remaining = 0` and stay that way until cured or sold. -/
theorem activeBatchInvariant (batches : List Batch) (strains : List Strain)
    (rnd : ℕ → ℚ) (out : ProcResult)
    (h : process_batches batches strains rnd = .ok out) :
    ∀ b ∈ out.active,
      (b.status ≠ "Finished" ∧ b.status ≠ "Destroyed") ∧
      ((b.status = "Curing" ∨ b.status = "Deep Curing") →
        1 ≤ b.seasons_remaining) := by
  unfold process_batches at h
  cases hp : processLoop rnd batches 0 strains with
  | error e => rw [hp] at h; simp at h
  | ok trip =>
      obtain ⟨bs, ss, evs⟩ := trip
      rw [hp] at h
      simp only [Except.ok.injEq] at h
      subst h
      intro b hb
      simp only [ProcResult.active] at hb
      have hmem := List.mem_filter.mp hb
      refine ⟨?_, ?_⟩
      · have hpred := hmem.2
        simp only [Bool.not_eq_true', Bool.or_eq_false_iff, beq_eq_false_iff_ne] at hpred
        simpa using hpred
      · exact processLoop_remaining rnd batches 0 strains (bs, ss, evs) hp b hmem.1

/-- C9 witness: the invariant at a concrete run of `process_batches`. -/
theorem activeBatchInvariantWitness :
    process_batches [deepTwoBatch] [] (fun _ => 1/2) = .ok procResW ∧
    ((deepTwoAfter.status ≠ "Finished" ∧ deepTwoAfter.status ≠ "Destroyed") ∧
     ((deepTwoAfter.status = "Curing" ∨ deepTwoAfter.status = "Deep Curing") →
       1 ≤ deepTwoAfter.seasons_remaining)) :=
  ⟨by with_unfolding_all rfl,
   activeBatchInvariant [deepTwoBatch] [] (fun _ => 1/2) procResW
     (by with_unfolding_all rfl) deepTwoAfter (by decide)⟩

/-- C9 counterexample: `create_batch` creates a `Fresh` batch with a remaining
    counter of 0, and that batch persists in the active collection — counter
    still 0 — after a `process_batches` step completes, so a remaining counter
    of 0 is not only transient. -/
theorem freshBatchZeroRemainingPersists :
    create_batch muskySpice 100 2 soilRoom "bF" = .ok freshB ∧
    freshB.seasons_remaining = 0 ∧ freshB.status = "Fresh" ∧
    process_batches [freshB] [muskySpice] (fun _ => 1/2)
      = .ok { batchesAll := [freshB], strains := [muskySpice], events := [],
              active := [freshB] } := by
  exact ⟨by with_unfolding_all rfl, rfl, rfl, by with_unfolding_all rfl⟩

lemma sortPick_mem (p q : Pair) (f g : Bool) :
    (memPair (sortPair (pickAllele p f) (pickAllele q g)).1 p ∨
     memPair (sortPair (pickAllele p f) (pickAllele q g)).1 q) ∧
    (memPair (sortPair (pickAllele p f) (pickAllele q g)).2 p ∨
     memPair (sortPair (pickAllele p f) (pickAllele q g)).2 q) := by
  rcases sortPair_cases (pickAllele p f) (pickAllele q g) with hc | hc <;> rw [hc]
  · exact ⟨Or.inl (pickAllele_memPair p f), Or.inr (pickAllele_memPair q g)⟩
  · exact ⟨Or.inr (pickAllele_memPair q g), Or.inl (pickAllele_memPair p f)⟩

lemma sortPick_hom (f g : Bool) :
    sortPair (pickAllele ("T", "T") f) (pickAllele ("T", "T") g) = ("T", "T") := by
  rw [pickAllele_self, pickAllele_self, sortPair_self]

/-- C7: for parents with well-formed gene maps, `breed` succeeds and, for
    every gene key, both symbols of the child's allele pair are drawn from
    parentA's pair or parentB's pair for that key; in particular two parents
    homozygous ("T","T") for a gene always yield a ("T","T") child for it. -/
theorem breedAllelesFromParents (pa pb : Strain) (nm : String) (ups : List String)
    (rnd : ℕ → Bool × Bool) (cid : String) (sa sb ra rb ta tb : Pair)
    (h1 : lookupGene pa.genetics "structure" = some sa)
    (h2 : lookupGene pb.genetics "structure" = some sb)
    (h3 : lookupGene pa.genetics "resistance" = some ra)
    (h4 : lookupGene pb.genetics "resistance" = some rb)
    (h5 : lookupGene pa.genetics "aroma" = some ta)
    (h6 : lookupGene pb.genetics "aroma" = some tb) :
    ∃ child, breed pa pb nm ups rnd cid = .ok child ∧
      (∀ (k : String) (cp apair bpair : Pair),
         lookupGene child.genetics k = some cp →
         lookupGene pa.genetics k = some apair →
         lookupGene pb.genetics k = some bpair →
         (memPair cp.1 apair ∨ memPair cp.1 bpair) ∧
         (memPair cp.2 apair ∨ memPair cp.2 bpair)) ∧
      (∀ (k : String) (cp : Pair),
         lookupGene pa.genetics k = some ("T", "T") →
         lookupGene pb.genetics k = some ("T", "T") →
         lookupGene child.genetics k = some cp → cp = ("T", "T")) := by
  have hb : breed pa pb nm ups rnd cid = .ok
      { name := nm, id := cid,
        genetics :=
          [("structure", sortPair (pickAllele sa (rnd 0).1) (pickAllele sb (rnd 0).2)),
           ("resistance", sortPair (pickAllele ra (rnd 1).1) (pickAllele rb (rnd 1).2)),
           ("aroma", sortPair (pickAllele ta (rnd 2).1) (pickAllele tb (rnd 2).2))],
        potency := 0, yield_amount := 0,
        generation := max pa.generation pb.generation + 1,
        parents_text := pa.name ++ " x " ++ pb.name,
        parent_ids := [pa.id, pb.id],
        is_proven := false, is_sequenced := ups.contains "seq",
        stock_standard := 0, stock_artisanal := 0 } := by
    simp only [breed, h1, h2, h3, h4, h5, h6]
  refine ⟨_, hb, ?_, ?_⟩
  · intro k cp apair bpair hcp hA hB
    simp only [] at hcp
    by_cases hk1 : k = "structure"
    · subst hk1
      rw [lookupGene_cons_eq, Option.some.injEq] at hcp
      subst hcp
      rw [h1, Option.some.injEq] at hA
      rw [h2, Option.some.injEq] at hB
      subst hA
      subst hB
      exact sortPick_mem sa sb (rnd 0).1 (rnd 0).2
    · rw [lookupGene_cons_ne _ _ _ _ (fun hh => hk1 hh.symm)] at hcp
      by_cases hk2 : k = "resistance"
      · subst hk2
        rw [lookupGene_cons_eq, Option.some.injEq] at hcp
        subst hcp
        rw [h3, Option.some.injEq] at hA
        rw [h4, Option.some.injEq] at hB
        subst hA
        subst hB
        exact sortPick_mem ra rb (rnd 1).1 (rnd 1).2
      · rw [lookupGene_cons_ne _ _ _ _ (fun hh => hk2 hh.symm)] at hcp
        by_cases hk3 : k = "aroma"
        · subst hk3
          rw [lookupGene_cons_eq, Option.some.injEq] at hcp
          subst hcp
          rw [h5, Option.some.injEq] at hA
          rw [h6, Option.some.injEq] at hB
          subst hA
          subst hB
          exact sortPick_mem ta tb (rnd 2).1 (rnd 2).2
        · rw [lookupGene_cons_ne _ _ _ _ (fun hh => hk3 hh.symm),
              lookupGene_nil] at hcp
          exact absurd hcp (by simp)
  · intro k cp hA hB hcp
    simp only [] at hcp
    by_cases hk1 : k = "structure"
    · subst hk1
      rw [h1, Option.some.injEq] at hA
      rw [h2, Option.some.injEq] at hB
      subst hA
      subst hB
      rw [lookupGene_cons_eq, Option.some.injEq, sortPick_hom] at hcp
      exact hcp.symm
    · rw [lookupGene_cons_ne _ _ _ _ (fun hh => hk1 hh.symm)] at hcp
      by_cases hk2 : k = "resistance"
      · subst hk2
        rw [h3, Option.some.injEq] at hA
        rw [h4, Option.some.injEq] at hB
        subst hA
        subst hB
        rw [lookupGene_cons_eq, Option.some.injEq, sortPick_hom] at hcp
        exact hcp.symm
      · rw [lookupGene_cons_ne _ _ _ _ (fun hh => hk2 hh.symm)] at hcp
        by_cases hk3 : k = "aroma"
        · subst hk3
          rw [h5, Option.some.injEq] at hA
          rw [h6, Option.some.injEq] at hB
          subst hA
          subst hB
          rw [lookupGene_cons_eq, Option.some.injEq, sortPick_hom] at hcp
          exact hcp.symm
        · rw [lookupGene_cons_ne _ _ _ _ (fun hh => hk3 hh.symm),
              lookupGene_nil] at hcp
          exact absurd hcp (by simp)

/-- C7 witness: allele containment instantiated at two concrete parents. -/
theorem breedAllelesFromParentsWitness :
    ∃ child, breed paW pbW "Kid" [] (fun _ => (true, false)) "c1" = .ok child ∧
      (∀ (k : String) (cp apair bpair : Pair),
         lookupGene child.genetics k = some cp →
         lookupGene paW.genetics k = some apair →
         lookupGene pbW.genetics k = some bpair →
         (memPair cp.1 apair ∨ memPair cp.1 bpair) ∧
         (memPair cp.2 apair ∨ memPair cp.2 bpair)) ∧
      (∀ (k : String) (cp : Pair),
         lookupGene paW.genetics k = some ("T", "T") →
         lookupGene pbW.genetics k = some ("T", "T") →
         lookupGene child.genetics k = some cp → cp = ("T", "T")) :=
  breedAllelesFromParents paW pbW "Kid" [] (fun _ => (true, false)) "c1"
    ("T", "T") ("T", "T") ("R", "r") ("r", "r") ("L", "P") ("C", "M")
    rfl rfl rfl rfl rfl rfl

/-- C10: on success, registering a bred child appends exactly one new strain
    to the collection; every pre-existing entry — in particular each parent
    record with all its fields — is left byte-for-byte unchanged.  (`breed`
    itself only reads the parents: every write in its body targets the fresh
    child record.) -/
theorem breedLeavesParentsUnchanged (strains : List Strain) (pa pb : Strain)
    (nm : String) (ups : List String) (rnd : ℕ → Bool × Bool) (cid : String)
    (out : List Strain)
    (h : breed_and_register strains pa pb nm ups rnd cid = .ok out) :
    (∀ i, i < strains.length → out[i]? = strains[i]?) ∧
    out.length = strains.length + 1 ∧
    (pa ∈ strains → pa ∈ out) ∧ (pb ∈ strains → pb ∈ out) := by
  unfold breed_and_register at h
  cases hb : breed pa pb nm ups rnd cid with
  | error e => rw [hb] at h; exact absurd h (by simp)
  | ok child =>
      rw [hb] at h
      simp only [Except.ok.injEq] at h
      subst h
      refine ⟨?_, by simp, ?_, ?_⟩
      · intro i hi
        rw [List.getElem?_append, if_pos hi]
      · intro hmem
        exact List.mem_append_left _ hmem
      · intro hmem
        exact List.mem_append_left _ hmem

/-- C10 witness: the frame property at a concrete breeding call. -/
theorem breedLeavesParentsUnchangedWitness :
    (∀ i, i < ([lemonSol, muskySpice] : List Strain).length →
        bredList[i]? = ([lemonSol, muskySpice] : List Strain)[i]?) ∧
    bredList.length = ([lemonSol, muskySpice] : List Strain).length + 1 ∧
    (lemonSol ∈ ([lemonSol, muskySpice] : List Strain) → lemonSol ∈ bredList) ∧
    (muskySpice ∈ ([lemonSol, muskySpice] : List Strain) → muskySpice ∈ bredList) :=
  breedLeavesParentsUnchanged [lemonSol, muskySpice] lemonSol muskySpice "Kid" []
    (fun _ => (true, true)) "c2" bredList rfl

end Cultivar
